import Mathlib

/-
Verification of the cart and order-placement logic of the shoe-app backend
(src/app.py, src/models.py).

The relational store is embedded shallowly: each table is a list of rows,
surrogate primary keys are generated from explicit autoincrement counters,
and the SQL `Float` price column is modelled as an exact rational.  The two
operations in scope are `add_to_cart` (app.py lines 192-230) and
`place_order` (app.py lines 233-269); each is translated as a pure function
from the committed store state to either an error (the handler raises before
mutating) or the state after the transaction commits, mirroring the
session's single `commit()` per request.
-/

deriving instance DecidableEq for Except

namespace ShoeApp

/-- A row of the `products` table (models.py, class Product): surrogate id,
name, description, price, image URL and an optional category reference.  The
`Float` price is modelled as an exact rational. -/
structure Product where
  id : Nat
  name : String
  description : String
  price : ℚ
  image_url : String
  category_id : Option Nat
deriving DecidableEq

/-- A row of the `cart` table (models.py, class Cart): surrogate id, user
reference, product reference and quantity (a Python int, hence `Int`). -/
structure Cart where
  id : Nat
  user_id : Nat
  product_id : Nat
  quantity : Int
deriving DecidableEq

/-- A row of the `orders` table (models.py, class Order); `order_date` is the
creation timestamp (an abstract instant). -/
structure Order where
  id : Nat
  user_id : Nat
  order_date : Nat
  total_amount : ℚ
  status : String
deriving DecidableEq

/-- The schema-level default for `Order.status` (models.py line 83). -/
def orderStatusDefault : String := "Pending"

/-- The committed store state restricted to the tables the cart and order
logic touches, plus the autoincrement counters standing in for the store's
primary-key generators: every id the store has ever handed out is below the
counter. -/
structure DB where
  products : List Product
  cart : List Cart
  orders : List Order
  nextCartId : Nat
  nextOrderId : Nat
deriving DecidableEq

/-- db.query(Product).filter(Product.id == pid).first() (app.py line 199). -/
def findProduct (db : DB) (pid : Nat) : Option Product :=
  db.products.find? (fun p => p.id == pid)

/-- db.query(Cart).filter(Cart.user_id == uid, Cart.product_id == pid).first()
(app.py lines 203-207). -/
def findCart (db : DB) (uid pid : Nat) : Option Cart :=
  db.cart.find? (fun c => c.user_id == uid && c.product_id == pid)

/-- db.query(Cart).filter(Cart.user_id == uid).all(): the user's cart lines
(app.py line 188). -/
def userCart (db : DB) (uid : Nat) : List Cart :=
  db.cart.filter (fun c => c.user_id == uid)

/-- Success variants of `add_to_cart`: the returned (created or updated) cart
line, or the 200-status "Item removed from cart." signal (app.py line 214),
modelled as a distinct success variant. -/
inductive CartAddResult where
  | updated (line : Cart)
  | removed
deriving DecidableEq

/-- Error variants of `add_to_cart`: 404 "Product not found" (app.py line
201) and 400 "Cannot add zero or negative quantity." (app.py line 220). -/
inductive CartAddError where
  | notFound
  | invalidArgument
deriving DecidableEq

/-- add_to_cart (app.py lines 192-230) for user `uid`, product `pid` and
quantity delta `qty`: validate the product, then either increment the
existing (uid, pid) line - deleting it when the new quantity drops to `≤ 0` -
or create a fresh line when the delta is positive.  The error paths raise
before any mutation, so they carry no new state. -/
def add_to_cart (db : DB) (uid pid : Nat) (qty : Int) :
    Except CartAddError (DB × CartAddResult) :=
  match findProduct db pid with
  | none => .error .notFound
  | some _ =>
    match findCart db uid pid with
    | some line =>
      let newQty := line.quantity + qty
      if newQty ≤ 0 then
        .ok ({ db with cart := db.cart.filter (fun c => c.id != line.id) }, .removed)
      else
        let line2 : Cart := { line with quantity := newQty }
        .ok ({ db with
                cart := db.cart.map (fun c => if c.id = line.id then line2 else c) },
             .updated line2)
    | none =>
      if qty ≤ 0 then .error .invalidArgument
      else
        let line2 : Cart := ⟨db.nextCartId, uid, pid, qty⟩
        .ok ({ db with cart := db.cart ++ [line2], nextCartId := db.nextCartId + 1 },
             .updated line2)

/-- db.query(Cart, Product).join(Product).filter(Cart.user_id == uid).all()
(app.py lines 244-246): an inner join, so a cart line whose product reference
resolves to no product row yields no result row. -/
def cartData (db : DB) (uid : Nat) : List (Cart × Product) :=
  (userCart db uid).filterMap
    (fun c => (findProduct db c.product_id).map (fun p => (c, p)))

/-- Error variant of `place_order`: 400 "Cart is empty, cannot place order."
(app.py lines 249-251). -/
inductive OrderError where
  | emptyCart
deriving DecidableEq

/-- The pending writes `place_order` stages inside its transaction before the
single commit: the order insert (db.add, line 260) and the bulk cart delete
(line 263). -/
inductive StoreOp where
  | insertOrder (o : Order)
  | clearCart (uid : Nat)
deriving DecidableEq

/-- Apply one staged write to the committed state. -/
def applyOp (db : DB) : StoreOp → DB
  | .insertOrder o =>
      { db with orders := db.orders ++ [o], nextOrderId := db.nextOrderId + 1 }
  | .clearCart uid =>
      { db with cart := db.cart.filter (fun c => c.user_id != uid) }

/-- Apply a list of staged writes in order. -/
def applyOps (db : DB) (ops : List StoreOp) : DB :=
  ops.foldl applyOp db

/-- The total `place_order` computes (app.py lines 254-256): the sum of
quantity × price over the joined cart rows. -/
def computeTotal (db : DB) (uid : Nat) : ℚ :=
  ((cartData db uid).map (fun cp => (cp.1.quantity : ℚ) * cp.2.price)).sum

/-- The read-and-stage phase of place_order (app.py lines 241-263): fetch the
join, guard against the empty cart (raising before anything is staged),
compute the total, build the Order row with status "Processing" and the
creation instant `now`, and stage the order insert followed by the cart
clear. -/
def placeOrderOps (db : DB) (uid now : Nat) :
    Except OrderError (List StoreOp × Order) :=
  let data := cartData db uid
  if data.isEmpty then .error .emptyCart
  else
    let o : Order := ⟨db.nextOrderId, uid, now,
      (data.map (fun cp => (cp.1.quantity : ℚ) * cp.2.price)).sum, "Processing"⟩
    .ok ([.insertOrder o, .clearCart uid], o)

/-- The commit boundary (app.py line 266): when the store commits, every
staged write applies; when the store fails before the commit, the transaction
rolls back and none of them do. -/
def commitTxn (db : DB) (ops : List StoreOp) (commitOk : Bool) : DB :=
  if commitOk then applyOps db ops else db

/-- place_order (app.py lines 233-269): stage the writes, then commit them as
one unit. -/
def place_order (db : DB) (uid now : Nat) : Except OrderError (DB × Order) :=
  match placeOrderOps db uid now with
  | .error e => .error e
  | .ok (ops, o) => .ok (applyOps db ops, o)

/-- The listed price of a product reference, 0 when the reference is
dangling; used to state sums over cart lines. -/
def priceOf (db : DB) (pid : Nat) : ℚ :=
  ((findProduct db pid).map Product.price).getD 0

/-- At most one cart row per (user, product) pair: rows at distinct list
positions never agree on both references. -/
def atMostOnePerPair (db : DB) : Prop :=
  db.cart.Pairwise (fun a b => ¬(a.user_id = b.user_id ∧ a.product_id = b.product_id))

/-- Primary-key well-formedness of the `cart` table, which the store's
`id = Column(Integer, primary_key=True)` declaration guarantees (models.py
line 69): ids are pairwise distinct and below the autoincrement counter. -/
def cartWF (db : DB) : Prop :=
  db.cart.Pairwise (fun a b => a.id ≠ b.id) ∧ ∀ c ∈ db.cart, c.id < db.nextCartId

/-- One add_to_cart call as a transformer of committed state: on an error the
handler raised before mutating, so the store is unchanged. -/
def runAdd (db : DB) (call : Nat × Nat × Int) : DB :=
  match add_to_cart db call.1 call.2.1 call.2.2 with
  | .ok (db2, _) => db2
  | .error _ => db

/-- A sequence of add_to_cart calls applied in order. -/
def runAdds (db : DB) (calls : List (Nat × Nat × Int)) : DB :=
  calls.foldl runAdd db

/-! ### Helper lemmas -/

/-- `findProduct` reads only the `products` table. -/
lemma findProduct_products_eq {db db2 : DB} (h : db2.products = db.products)
    (pid : Nat) : findProduct db2 pid = findProduct db pid := by
  simp [findProduct, h]

/-- Unpack a successful `findCart` lookup: the row is in the table and keys
match. -/
lemma findCart_some {db : DB} {uid pid : Nat} {line : Cart}
    (h : findCart db uid pid = some line) :
    line ∈ db.cart ∧ line.user_id = uid ∧ line.product_id = pid := by
  have hmem := List.mem_of_find?_eq_some h
  have hkey := List.find?_some h
  simp only [Bool.and_eq_true, beq_iff_eq] at hkey
  exact ⟨hmem, hkey.1, hkey.2⟩

/-- Unpack a failed `findCart` lookup: no row in the table has both keys. -/
lemma findCart_none {db : DB} {uid pid : Nat} (h : findCart db uid pid = none) :
    ∀ c ∈ db.cart, ¬(c.user_id = uid ∧ c.product_id = pid) := by
  intro c hc
  have := List.find?_eq_none.mp h c hc
  simpa using this

/-- The mapped value of the inner join equals the mapped value of the cart
lines filtered to those whose product reference resolves. -/
lemma joined_map_eq_filtered_map (db : DB) (l : List Cart) :
    ((l.filterMap (fun c => (findProduct db c.product_id).map (fun p => (c, p)))).map
        (fun cp => (cp.1.quantity : ℚ) * cp.2.price))
      = ((l.filter (fun c => (findProduct db c.product_id).isSome)).map
        (fun c => (c.quantity : ℚ) * priceOf db c.product_id)) := by
  induction l with
  | nil => rfl
  | cons c l ih =>
    cases h : findProduct db c.product_id with
    | none => simpa [List.filterMap_cons, List.filter_cons, h] using ih
    | some p => simpa [List.filterMap_cons, List.filter_cons, h, priceOf] using ih

/-- The join is empty exactly when every line of the user resolves to no
product. -/
lemma cartData_eq_nil_iff (db : DB) (uid : Nat) :
    cartData db uid = [] ↔ ∀ c ∈ userCart db uid, findProduct db c.product_id = none := by
  simp [cartData, List.filterMap_eq_nil_iff, Option.map_eq_none']

/-- After the bulk cart delete for `uid`, the user has no cart lines. -/
lemma userCart_clearCart (db : DB) (uid : Nat) :
    userCart (applyOp db (.clearCart uid)) uid = [] := by
  rw [List.eq_nil_iff_forall_not_mem]
  intro c hc
  simp only [userCart, applyOp, List.mem_filter, List.filter_filter,
    Bool.and_eq_true, beq_iff_eq, bne_iff_ne, ne_eq] at hc
  exact hc.2.2 hc.2.1

/-! ### C3: empty-cart guard -/

/-- Claim C3: for every user with zero cart lines, place_order fails with
EmptyCart; no write is staged, so no order is created and the store is
unchanged. -/
theorem place_order_empty_cart_guard (db : DB) (uid now : Nat)
    (h : userCart db uid = []) :
    place_order db uid now = .error .emptyCart ∧
      placeOrderOps db uid now = .error .emptyCart := by
  have hc : cartData db uid = [] := by simp [cartData, h]
  refine ⟨?_, ?_⟩ <;> simp [place_order, placeOrderOps, hc]

/-- Witness for C3: a store where user 2 has a cart line but user 1 has
none; placing an order for user 1 fails with EmptyCart. -/
theorem place_order_empty_cart_guard_witness :
    userCart ⟨[⟨1, "A", "d", 10, "u", none⟩], [⟨1, 2, 1, 1⟩], [], 2, 1⟩ 1 = [] ∧
      place_order ⟨[⟨1, "A", "d", 10, "u", none⟩], [⟨1, 2, 1, 1⟩], [], 2, 1⟩ 1 0 =
        .error .emptyCart :=
  ⟨by decide, (place_order_empty_cart_guard _ 1 0 (by decide)).1⟩

/-- The removal path of add_to_cart, written out: with an existing line whose
incremented quantity is nonpositive, the call deletes the line's row and
reports Removed. -/
lemma add_to_cart_removed_eq {db : DB} {uid pid : Nat} {qty : Int}
    {prod : Product} {line : Cart}
    (hp : findProduct db pid = some prod) (hl : findCart db uid pid = some line)
    (hq : line.quantity + qty ≤ 0) :
    add_to_cart db uid pid qty =
      .ok ({ db with cart := db.cart.filter (fun c => c.id != line.id) }, .removed) := by
  simp [add_to_cart, hp, hl, hq]

/-! ### C5: nonpositive new quantity removes the line -/

/-- Claim C5: when a line for (uid, pid) exists and the incremented quantity
is `≤ 0`, add_to_cart deletes the line and reports the Removed success
variant, not an error. -/
theorem add_to_cart_nonpositive_removes (db : DB) (uid pid : Nat) (qty : Int)
    (prod : Product) (line : Cart)
    (hp : findProduct db pid = some prod) (hl : findCart db uid pid = some line)
    (hq : line.quantity + qty ≤ 0) :
    ∃ db2, add_to_cart db uid pid qty = .ok (db2, .removed) ∧ line ∉ db2.cart := by
  refine ⟨{ db with cart := db.cart.filter (fun c => c.id != line.id) }, ?_, ?_⟩
  · exact add_to_cart_removed_eq hp hl hq
  · simp [List.mem_filter]

/-- Witness for C5: a line with quantity 2 incremented by -2 is removed. -/
theorem add_to_cart_nonpositive_removes_witness :
    findCart ⟨[⟨1, "A", "d", 10, "u", none⟩], [⟨1, 1, 1, 2⟩], [], 2, 1⟩ 1 1 =
        some ⟨1, 1, 1, 2⟩ ∧
      ∃ db2, add_to_cart ⟨[⟨1, "A", "d", 10, "u", none⟩], [⟨1, 1, 1, 2⟩], [], 2, 1⟩
          1 1 (-2) = .ok (db2, .removed) ∧ (⟨1, 1, 1, 2⟩ : Cart) ∉ db2.cart :=
  ⟨by decide,
    add_to_cart_nonpositive_removes _ 1 1 (-2) ⟨1, "A", "d", 10, "u", none⟩
      ⟨1, 1, 1, 2⟩ (by decide) (by decide) (by decide)⟩

/-! ### C6: validation of add_to_cart -/

/-- Claim C6: add_to_cart fails with NotFound when the product reference is
dangling; with an existing product and no existing line it fails with
InvalidArgument on a nonpositive delta, and on a positive delta it creates a
line whose quantity equals the delta. -/
theorem add_to_cart_guards (db : DB) (uid pid : Nat) (qty : Int) :
    (findProduct db pid = none → add_to_cart db uid pid qty = .error .notFound) ∧
    (∀ prod, findProduct db pid = some prod → findCart db uid pid = none →
      qty ≤ 0 → add_to_cart db uid pid qty = .error .invalidArgument) ∧
    (∀ prod, findProduct db pid = some prod → findCart db uid pid = none →
      0 < qty → ∃ db2,
        add_to_cart db uid pid qty = .ok (db2, .updated ⟨db.nextCartId, uid, pid, qty⟩) ∧
        (⟨db.nextCartId, uid, pid, qty⟩ : Cart) ∈ db2.cart ∧
        (⟨db.nextCartId, uid, pid, qty⟩ : Cart).quantity = qty) := by
  refine ⟨?_, ?_, ?_⟩
  · intro h; simp [add_to_cart, h]
  · intro prod hp hl hq; simp [add_to_cart, hp, hl, hq]
  · intro prod hp hl hq
    refine ⟨{ db with cart := db.cart ++ [⟨db.nextCartId, uid, pid, qty⟩],
                      nextCartId := db.nextCartId + 1 }, ?_, ?_, rfl⟩
    · simp [add_to_cart, hp, hl, not_le.mpr hq]
    · simp

/-- Witness for C6: all three guards at concrete inputs over one store with
a single product (id 1) and an empty cart. -/
theorem add_to_cart_guards_witness :
    add_to_cart ⟨[⟨1, "A", "d", 10, "u", none⟩], [], [], 1, 1⟩ 1 99 1 =
        .error .notFound ∧
      add_to_cart ⟨[⟨1, "A", "d", 10, "u", none⟩], [], [], 1, 1⟩ 1 1 0 =
        .error .invalidArgument ∧
      ∃ db2, add_to_cart ⟨[⟨1, "A", "d", 10, "u", none⟩], [], [], 1, 1⟩ 1 1 3 =
          .ok (db2, .updated ⟨1, 1, 1, 3⟩) ∧
        (⟨1, 1, 1, 3⟩ : Cart) ∈ db2.cart ∧ (⟨1, 1, 1, 3⟩ : Cart).quantity = 3 :=
  ⟨(add_to_cart_guards _ 1 99 1).1 (by decide),
    (add_to_cart_guards _ 1 1 0).2.1 ⟨1, "A", "d", 10, "u", none⟩ (by decide)
      (by decide) (by decide),
    (add_to_cart_guards _ 1 1 3).2.2 ⟨1, "A", "d", 10, "u", none⟩ (by decide)
      (by decide) (by decide)⟩

/-! ### C7: increment then decrement -/

/-- Claim C7: from a state where product pid exists and user uid has no line
for it, adding quantity n > 0 and then adding -n reports Removed and leaves
no cart line for (uid, pid). -/
theorem add_then_remove_roundtrip (db : DB) (uid pid : Nat) (n : Int)
    (prod : Product) (hp : findProduct db pid = some prod)
    (hl : findCart db uid pid = none) (hn : 0 < n) :
    ∃ db1 l, add_to_cart db uid pid n = .ok (db1, .updated l) ∧
      ∃ db2, add_to_cart db1 uid pid (-n) = .ok (db2, .removed) ∧
        findCart db2 uid pid = none := by
  have h1 : add_to_cart db uid pid n =
      .ok ({ db with cart := db.cart ++ [⟨db.nextCartId, uid, pid, n⟩],
                     nextCartId := db.nextCartId + 1 },
           .updated ⟨db.nextCartId, uid, pid, n⟩) := by
    simp [add_to_cart, hp, hl, not_le.mpr hn]
  set db1 : DB := { db with cart := db.cart ++ [⟨db.nextCartId, uid, pid, n⟩],
                            nextCartId := db.nextCartId + 1 } with hdb1
  have hp1 : findProduct db1 pid = some prod := hp
  have hl1 : findCart db1 uid pid = some ⟨db.nextCartId, uid, pid, n⟩ := by
    simp only [findCart, hdb1, List.find?_append]
    rw [show db.cart.find? (fun c => c.user_id == uid && c.product_id == pid) =
      none from hl]
    simp
  refine ⟨db1, _, h1, ?_⟩
  have hq : (⟨db.nextCartId, uid, pid, n⟩ : Cart).quantity + (-n) ≤ 0 := by simp
  have h2 := add_to_cart_removed_eq hp1 hl1 hq
  refine ⟨_, h2, ?_⟩
  rw [findCart, List.find?_eq_none]
  intro c hc
  have hc2 : c ∈ db1.cart.filter
      (fun x => x.id != (⟨db.nextCartId, uid, pid, n⟩ : Cart).id) := hc
  simp only [List.mem_filter, hdb1, List.mem_append, List.mem_singleton,
    bne_iff_ne, ne_eq, decide_eq_true_eq] at hc2
  obtain ⟨hc1 | hc1, hc3⟩ := hc2
  · have := findCart_none hl c hc1
    simpa using this
  · subst hc1; simp at hc3

/-- Witness for C7: on a store with product 1 and an empty cart, adding +2
then -2 for (user 1, product 1) reports Removed and leaves no line. -/
theorem add_then_remove_roundtrip_witness :
    findProduct ⟨[⟨1, "p1", "d1", 10, "u1", none⟩], [], [], 1, 1⟩ 1 =
        some ⟨1, "p1", "d1", 10, "u1", none⟩ ∧
      findCart ⟨[⟨1, "p1", "d1", 10, "u1", none⟩], [], [], 1, 1⟩ 1 1 = none ∧
      (0 : Int) < 2 ∧
      (∃ db1 l, add_to_cart ⟨[⟨1, "p1", "d1", 10, "u1", none⟩], [], [], 1, 1⟩ 1 1 2 =
          .ok (db1, .updated l) ∧
        ∃ db2, add_to_cart db1 1 1 (-2) = .ok (db2, .removed) ∧
          findCart db2 1 1 = none) :=
  ⟨by decide, by decide, by decide,
    add_then_remove_roundtrip _ 1 1 2 ⟨1, "p1", "d1", 10, "u1", none⟩
      (by decide) (by decide) (by decide)⟩

/-! ### Inversion of place_order -/

/-- Shape of a successful read-and-stage phase: the staged writes are exactly
the order insert followed by the cart clear, and the staged Order row carries
the next key, the caller, the instant, the computed total and status
"Processing". -/
lemma placeOrderOps_ok {db : DB} {uid now : Nat} {ops : List StoreOp} {o : Order}
    (h : placeOrderOps db uid now = .ok (ops, o)) :
    ops = [.insertOrder o, .clearCart uid] ∧
      o = ⟨db.nextOrderId, uid, now, computeTotal db uid, "Processing"⟩ := by
  simp only [placeOrderOps] at h
  split at h
  · simp at h
  · rw [Except.ok.injEq, Prod.mk.injEq] at h
    obtain ⟨h1, h2⟩ := h
    subst h2
    exact ⟨h1.symm, rfl⟩

/-- A successful place_order is a successful stage phase whose writes were
committed. -/
lemma place_order_ok {db : DB} {uid now : Nat} {db2 : DB} {o : Order}
    (h : place_order db uid now = .ok (db2, o)) :
    ∃ ops, placeOrderOps db uid now = .ok (ops, o) ∧ db2 = applyOps db ops := by
  unfold place_order at h
  cases hops : placeOrderOps db uid now with
  | error e => rw [hops] at h; simp at h
  | ok po =>
    obtain ⟨ops, oo⟩ := po
    rw [hops] at h
    simp only [Except.ok.injEq, Prod.mk.injEq] at h
    obtain ⟨hdb, ho⟩ := h
    subst ho
    subst hdb
    exact ⟨ops, rfl, rfl⟩

/-- A nonempty join makes the stage phase succeed with the expected writes. -/
lemma placeOrderOps_of_ne_nil {db : DB} {uid : Nat} (now : Nat)
    (hcne : cartData db uid ≠ []) :
    placeOrderOps db uid now =
      .ok ([.insertOrder ⟨db.nextOrderId, uid, now, computeTotal db uid, "Processing"⟩,
            .clearCart uid],
           ⟨db.nextOrderId, uid, now, computeTotal db uid, "Processing"⟩) := by
  simp only [placeOrderOps]
  rw [if_neg]
  · rfl
  · simpa [List.isEmpty_iff] using hcne

/-- The computed total equals the sum over exactly the cart lines whose
product reference resolves. -/
lemma computeTotal_eq_filtered (db : DB) (uid : Nat) :
    computeTotal db uid =
      (((userCart db uid).filter (fun c => (findProduct db c.product_id).isSome)).map
        (fun c => (c.quantity : ℚ) * priceOf db c.product_id)).sum := by
  simp only [computeTotal, cartData]
  exact congrArg List.sum (joined_map_eq_filtered_map db _)

/-! ### C1: total is the sum of quantity times price -/

/-- Claim C1: for a user whose cart is nonempty (and whose lines all resolve
to existing products, so each has a current price), place_order succeeds and
the order's total_amount is the sum over the user's cart lines of quantity
times the product's current price. -/
theorem place_order_total_sum (db : DB) (uid now : Nat)
    (hres : ∀ c ∈ userCart db uid, (findProduct db c.product_id).isSome)
    (hne : userCart db uid ≠ []) :
    ∃ db2 o, place_order db uid now = .ok (db2, o) ∧
      o.total_amount = ((userCart db uid).map
        (fun c => (c.quantity : ℚ) * priceOf db c.product_id)).sum := by
  have hcne : cartData db uid ≠ [] := by
    intro h0
    obtain ⟨c, hc⟩ := List.exists_mem_of_ne_nil _ hne
    have := (cartData_eq_nil_iff db uid).mp h0 c hc
    have h2 := hres c hc
    rw [this] at h2
    simp at h2
  have hops := placeOrderOps_of_ne_nil now hcne
  refine ⟨applyOps db
      [.insertOrder ⟨db.nextOrderId, uid, now, computeTotal db uid, "Processing"⟩,
       .clearCart uid],
    ⟨db.nextOrderId, uid, now, computeTotal db uid, "Processing"⟩, ?_, ?_⟩
  · unfold place_order
    rw [hops]
  · show computeTotal db uid = _
    rw [computeTotal_eq_filtered,
      List.filter_eq_self.mpr (fun c hc => by simpa using hres c hc)]

/-- Witness for C1: the spec's concrete instance, products priced 10.00 and
5.50 with quantities 2 and 1, giving total_amount 25.50. -/
theorem place_order_total_sum_witness :
    (∀ c ∈ userCart ⟨[⟨1, "p1", "d1", 10, "u1", none⟩, ⟨2, "p2", "d2", 5.5, "u2", none⟩],
        [⟨1, 1, 1, 2⟩, ⟨2, 1, 2, 1⟩], [], 3, 1⟩ 1,
      (findProduct ⟨[⟨1, "p1", "d1", 10, "u1", none⟩, ⟨2, "p2", "d2", 5.5, "u2", none⟩],
        [⟨1, 1, 1, 2⟩, ⟨2, 1, 2, 1⟩], [], 3, 1⟩ c.product_id).isSome) ∧
    (∃ db2 o, place_order ⟨[⟨1, "p1", "d1", 10, "u1", none⟩, ⟨2, "p2", "d2", 5.5, "u2", none⟩],
        [⟨1, 1, 1, 2⟩, ⟨2, 1, 2, 1⟩], [], 3, 1⟩ 1 7 = .ok (db2, o) ∧
      o.total_amount = ((userCart ⟨[⟨1, "p1", "d1", 10, "u1", none⟩,
          ⟨2, "p2", "d2", 5.5, "u2", none⟩], [⟨1, 1, 1, 2⟩, ⟨2, 1, 2, 1⟩], [], 3, 1⟩ 1).map
        (fun c => (c.quantity : ℚ) * priceOf ⟨[⟨1, "p1", "d1", 10, "u1", none⟩,
          ⟨2, "p2", "d2", 5.5, "u2", none⟩], [⟨1, 1, 1, 2⟩, ⟨2, 1, 2, 1⟩], [], 3, 1⟩
          c.product_id)).sum) ∧
    (place_order ⟨[⟨1, "p1", "d1", 10, "u1", none⟩, ⟨2, "p2", "d2", 5.5, "u2", none⟩],
        [⟨1, 1, 1, 2⟩, ⟨2, 1, 2, 1⟩], [], 3, 1⟩ 1 7).map
      (fun x => x.2.total_amount) = .ok (25.5 : ℚ) :=
  ⟨by decide,
    place_order_total_sum _ 1 7 (by decide) (by decide),
    by with_unfolding_all rfl⟩

/-! ### C2: order insert and cart clear commit atomically -/

/-- Claim C2: the order insert and the cart clear are staged inside one
transaction and applied by a single commit: when the store fails before the
commit, neither the orders table nor the cart table changes (in particular no
Order row is committed); when the commit succeeds, both the new Order row and
the deletion of all the user's cart lines persist. -/
theorem place_order_atomic_commit (db : DB) (uid now : Nat)
    (ops : List StoreOp) (o : Order)
    (h : placeOrderOps db uid now = .ok (ops, o)) :
    ((commitTxn db ops false).orders = db.orders ∧
        (commitTxn db ops false).cart = db.cart) ∧
      (o ∈ (commitTxn db ops true).orders ∧
        userCart (commitTxn db ops true) uid = []) := by
  obtain ⟨hops, -⟩ := placeOrderOps_ok h
  subst hops
  refine ⟨⟨rfl, rfl⟩, ?_, ?_⟩
  · show o ∈ (applyOp (applyOp db (.insertOrder o)) (.clearCart uid)).orders
    simp [applyOp]
  · exact userCart_clearCart (applyOp db (.insertOrder o)) uid

/-- Witness for C2: the two-line cart of the C1 instance; a failed commit
leaves the store unchanged and a successful one both inserts the order and
clears the cart. -/
theorem place_order_atomic_commit_witness :
    placeOrderOps ⟨[⟨1, "p1", "d1", 10, "u1", none⟩, ⟨2, "p2", "d2", 5.5, "u2", none⟩],
        [⟨1, 1, 1, 2⟩, ⟨2, 1, 2, 1⟩], [], 3, 1⟩ 1 7 =
      .ok ([.insertOrder ⟨1, 1, 7, 25.5, "Processing"⟩, .clearCart 1],
           ⟨1, 1, 7, 25.5, "Processing"⟩) ∧
    (((commitTxn ⟨[⟨1, "p1", "d1", 10, "u1", none⟩, ⟨2, "p2", "d2", 5.5, "u2", none⟩],
          [⟨1, 1, 1, 2⟩, ⟨2, 1, 2, 1⟩], [], 3, 1⟩
        [.insertOrder ⟨1, 1, 7, 25.5, "Processing"⟩, .clearCart 1] false).orders =
          (⟨[⟨1, "p1", "d1", 10, "u1", none⟩, ⟨2, "p2", "d2", 5.5, "u2", none⟩],
            [⟨1, 1, 1, 2⟩, ⟨2, 1, 2, 1⟩], [], 3, 1⟩ : DB).orders ∧
      (commitTxn ⟨[⟨1, "p1", "d1", 10, "u1", none⟩, ⟨2, "p2", "d2", 5.5, "u2", none⟩],
          [⟨1, 1, 1, 2⟩, ⟨2, 1, 2, 1⟩], [], 3, 1⟩
        [.insertOrder ⟨1, 1, 7, 25.5, "Processing"⟩, .clearCart 1] false).cart =
          (⟨[⟨1, "p1", "d1", 10, "u1", none⟩, ⟨2, "p2", "d2", 5.5, "u2", none⟩],
            [⟨1, 1, 1, 2⟩, ⟨2, 1, 2, 1⟩], [], 3, 1⟩ : DB).cart) ∧
    ((⟨1, 1, 7, 25.5, "Processing"⟩ : Order) ∈
        (commitTxn ⟨[⟨1, "p1", "d1", 10, "u1", none⟩, ⟨2, "p2", "d2", 5.5, "u2", none⟩],
          [⟨1, 1, 1, 2⟩, ⟨2, 1, 2, 1⟩], [], 3, 1⟩
          [.insertOrder ⟨1, 1, 7, 25.5, "Processing"⟩, .clearCart 1] true).orders ∧
      userCart (commitTxn ⟨[⟨1, "p1", "d1", 10, "u1", none⟩,
          ⟨2, "p2", "d2", 5.5, "u2", none⟩], [⟨1, 1, 1, 2⟩, ⟨2, 1, 2, 1⟩], [], 3, 1⟩
          [.insertOrder ⟨1, 1, 7, 25.5, "Processing"⟩, .clearCart 1] true) 1 = [])) :=
  ⟨by with_unfolding_all rfl,
    place_order_atomic_commit _ 1 7 _ _ (by with_unfolding_all rfl)⟩

/-! ### C8: fields of the created order -/

/-- Claim C8: every order place_order creates has status "Processing" (not
the schema default "Pending"), the caller as user reference, the computed
total as total_amount, and its creation instant as order_date. -/
theorem place_order_order_fields (db : DB) (uid now : Nat) (db2 : DB) (o : Order)
    (h : place_order db uid now = .ok (db2, o)) :
    o.status = "Processing" ∧ o.status ≠ orderStatusDefault ∧ o.user_id = uid ∧
      o.total_amount = computeTotal db uid ∧ o.order_date = now := by
  obtain ⟨ops, hops, -⟩ := place_order_ok h
  obtain ⟨-, ho⟩ := placeOrderOps_ok hops
  subst ho
  exact ⟨rfl, show ("Processing" : String) ≠ orderStatusDefault by decide, rfl, rfl, rfl⟩

/-- Witness for C8: the C1 store; the created order is
⟨1, 1, 7, 25.5, "Processing"⟩. -/
theorem place_order_order_fields_witness :
    place_order ⟨[⟨1, "p1", "d1", 10, "u1", none⟩, ⟨2, "p2", "d2", 5.5, "u2", none⟩],
        [⟨1, 1, 1, 2⟩, ⟨2, 1, 2, 1⟩], [], 3, 1⟩ 1 7 =
      .ok (⟨[⟨1, "p1", "d1", 10, "u1", none⟩, ⟨2, "p2", "d2", 5.5, "u2", none⟩],
            [], [⟨1, 1, 7, 25.5, "Processing"⟩], 3, 2⟩,
           ⟨1, 1, 7, 25.5, "Processing"⟩) ∧
    ((⟨1, 1, 7, 25.5, "Processing"⟩ : Order).status = "Processing" ∧
      (⟨1, 1, 7, 25.5, "Processing"⟩ : Order).status ≠ orderStatusDefault ∧
      (⟨1, 1, 7, 25.5, "Processing"⟩ : Order).user_id = 1 ∧
      (⟨1, 1, 7, 25.5, "Processing"⟩ : Order).total_amount =
        computeTotal ⟨[⟨1, "p1", "d1", 10, "u1", none⟩, ⟨2, "p2", "d2", 5.5, "u2", none⟩],
          [⟨1, 1, 1, 2⟩, ⟨2, 1, 2, 1⟩], [], 3, 1⟩ 1 ∧
      (⟨1, 1, 7, 25.5, "Processing"⟩ : Order).order_date = 7) :=
  ⟨by with_unfolding_all rfl,
    place_order_order_fields _ 1 7 _ _ (by with_unfolding_all rfl)⟩

/-! ### C10: dangling product references in the cart -/

/-- Claim C10: the join is inner, so when the user's cart mixes lines whose
product reference resolves with dangling ones, place_order succeeds, the
total ranges over the resolving lines only, and the bulk delete removes every
cart line of the user including the dangling ones; when every line is
dangling, place_order fails with EmptyCart even though cart lines exist, and
nothing is staged, so no line is deleted. -/
theorem place_order_dangling_refs (db : DB) (uid now : Nat) :
    ((∃ c ∈ userCart db uid, (findProduct db c.product_id).isSome) →
      (∃ c ∈ userCart db uid, findProduct db c.product_id = none) →
      ∃ db2 o, place_order db uid now = .ok (db2, o) ∧
        o.total_amount = (((userCart db uid).filter
            (fun c => (findProduct db c.product_id).isSome)).map
          (fun c => (c.quantity : ℚ) * priceOf db c.product_id)).sum ∧
        userCart db2 uid = []) ∧
    (userCart db uid ≠ [] →
      (∀ c ∈ userCart db uid, findProduct db c.product_id = none) →
      place_order db uid now = .error .emptyCart ∧
        placeOrderOps db uid now = .error .emptyCart) := by
  constructor
  · rintro ⟨c, hc, hcsome⟩ -
    have hcne : cartData db uid ≠ [] := by
      intro h0
      have := (cartData_eq_nil_iff db uid).mp h0 c hc
      rw [this] at hcsome
      simp at hcsome
    have hops := placeOrderOps_of_ne_nil now hcne
    refine ⟨applyOps db
        [.insertOrder ⟨db.nextOrderId, uid, now, computeTotal db uid, "Processing"⟩,
         .clearCart uid],
      ⟨db.nextOrderId, uid, now, computeTotal db uid, "Processing"⟩, ?_, ?_, ?_⟩
    · unfold place_order
      rw [hops]
    · exact computeTotal_eq_filtered db uid
    · exact userCart_clearCart
        (applyOp db (.insertOrder
          ⟨db.nextOrderId, uid, now, computeTotal db uid, "Processing"⟩)) uid
  · intro _ hall
    have hc : cartData db uid = [] := (cartData_eq_nil_iff db uid).mpr hall
    refine ⟨?_, ?_⟩ <;> simp [place_order, placeOrderOps, hc]

/-- Witness for C10: one store where user 1 holds a resolving line (2 of the
10.00 product) and a dangling line (5 of the absent product 99), so the
order totals 20.00 and both lines are deleted; and one store where user 1
holds only the dangling line, so place_order fails with EmptyCart. -/
theorem place_order_dangling_refs_witness :
    ((∃ c ∈ userCart ⟨[⟨1, "p1", "d1", 10, "u1", none⟩],
        [⟨1, 1, 1, 2⟩, ⟨2, 1, 99, 5⟩], [], 3, 1⟩ 1,
      (findProduct ⟨[⟨1, "p1", "d1", 10, "u1", none⟩],
        [⟨1, 1, 1, 2⟩, ⟨2, 1, 99, 5⟩], [], 3, 1⟩ c.product_id).isSome) ∧
      (∃ c ∈ userCart ⟨[⟨1, "p1", "d1", 10, "u1", none⟩],
          [⟨1, 1, 1, 2⟩, ⟨2, 1, 99, 5⟩], [], 3, 1⟩ 1,
        findProduct ⟨[⟨1, "p1", "d1", 10, "u1", none⟩],
          [⟨1, 1, 1, 2⟩, ⟨2, 1, 99, 5⟩], [], 3, 1⟩ c.product_id = none) ∧
      (∃ db2 o, place_order ⟨[⟨1, "p1", "d1", 10, "u1", none⟩],
          [⟨1, 1, 1, 2⟩, ⟨2, 1, 99, 5⟩], [], 3, 1⟩ 1 0 = .ok (db2, o) ∧
        o.total_amount = (((userCart ⟨[⟨1, "p1", "d1", 10, "u1", none⟩],
            [⟨1, 1, 1, 2⟩, ⟨2, 1, 99, 5⟩], [], 3, 1⟩ 1).filter
            (fun c => (findProduct ⟨[⟨1, "p1", "d1", 10, "u1", none⟩],
              [⟨1, 1, 1, 2⟩, ⟨2, 1, 99, 5⟩], [], 3, 1⟩ c.product_id).isSome)).map
          (fun c => (c.quantity : ℚ) * priceOf ⟨[⟨1, "p1", "d1", 10, "u1", none⟩],
            [⟨1, 1, 1, 2⟩, ⟨2, 1, 99, 5⟩], [], 3, 1⟩ c.product_id)).sum ∧
        userCart db2 1 = []) ∧
      (place_order ⟨[⟨1, "p1", "d1", 10, "u1", none⟩],
          [⟨1, 1, 1, 2⟩, ⟨2, 1, 99, 5⟩], [], 3, 1⟩ 1 0).map
        (fun x => x.2.total_amount) = .ok (20 : ℚ)) ∧
    (userCart ⟨[], [⟨1, 1, 99, 5⟩], [], 2, 1⟩ 1 ≠ [] ∧
      place_order ⟨[], [⟨1, 1, 99, 5⟩], [], 2, 1⟩ 1 0 = .error .emptyCart) :=
  ⟨⟨by decide, by decide,
      (place_order_dangling_refs ⟨[⟨1, "p1", "d1", 10, "u1", none⟩],
          [⟨1, 1, 1, 2⟩, ⟨2, 1, 99, 5⟩], [], 3, 1⟩ 1 0).1 (by decide) (by decide),
      by with_unfolding_all rfl⟩,
    ⟨by decide,
      ((place_order_dangling_refs ⟨[], [⟨1, 1, 99, 5⟩], [], 2, 1⟩ 1 0).2
        (by decide) (by decide)).1⟩⟩

/-! ### C4: at most one cart line per (user, product) -/

/-- The NotFound path of add_to_cart, written out. -/
lemma add_to_cart_notFound_eq {db : DB} {uid pid : Nat} {qty : Int}
    (hp : findProduct db pid = none) :
    add_to_cart db uid pid qty = .error .notFound := by
  simp [add_to_cart, hp]

/-- The InvalidArgument path of add_to_cart, written out. -/
lemma add_to_cart_invalid_eq {db : DB} {uid pid : Nat} {qty : Int} {prod : Product}
    (hp : findProduct db pid = some prod) (hl : findCart db uid pid = none)
    (hq : qty ≤ 0) :
    add_to_cart db uid pid qty = .error .invalidArgument := by
  simp [add_to_cart, hp, hl, hq]

/-- The in-place update path of add_to_cart, written out. -/
lemma add_to_cart_updated_eq {db : DB} {uid pid : Nat} {qty : Int}
    {prod : Product} {line : Cart}
    (hp : findProduct db pid = some prod) (hl : findCart db uid pid = some line)
    (hq : ¬line.quantity + qty ≤ 0) :
    add_to_cart db uid pid qty =
      .ok ({ db with
              cart := db.cart.map (fun c => if c.id = line.id then
                { line with quantity := line.quantity + qty } else c) },
           .updated { line with quantity := line.quantity + qty }) := by
  simp [add_to_cart, hp, hl, hq]

/-- The insert path of add_to_cart, written out. -/
lemma add_to_cart_inserted_eq {db : DB} {uid pid : Nat} {qty : Int} {prod : Product}
    (hp : findProduct db pid = some prod) (hl : findCart db uid pid = none)
    (hq : ¬qty ≤ 0) :
    add_to_cart db uid pid qty =
      .ok ({ db with
              cart := db.cart ++ [⟨db.nextCartId, uid, pid, qty⟩],
              nextCartId := db.nextCartId + 1 },
           .updated ⟨db.nextCartId, uid, pid, qty⟩) := by
  simp [add_to_cart, hp, hl, hq]

instance (db : DB) : Decidable (atMostOnePerPair db) := by
  unfold atMostOnePerPair
  infer_instance

instance (db : DB) : Decidable (cartWF db) := by
  unfold cartWF
  infer_instance

/-- In a list with pairwise-distinct ids, an id determines the element. -/
lemma eq_of_mem_of_id_eq {l : List Cart}
    (hl : l.Pairwise (fun a b => a.id ≠ b.id)) {a b : Cart}
    (ha : a ∈ l) (hb : b ∈ l) (h : a.id = b.id) : a = b := by
  induction l with
  | nil => cases ha
  | cons x t ih =>
    rw [List.pairwise_cons] at hl
    rcases List.mem_cons.mp ha with ha1 | ha2 <;>
      rcases List.mem_cons.mp hb with hb1 | hb2
    · rw [ha1, hb1]
    · subst ha1
      exact absurd h (hl.1 b hb2)
    · subst hb1
      exact absurd h.symm (hl.1 a ha2)
    · exact ih hl.2 ha2 hb2

/-- One add_to_cart call, whatever its outcome, preserves primary-key
well-formedness of the cart table and the one-line-per-(user, product)
invariant. -/
lemma runAdd_preserves (db : DB) (call : Nat × Nat × Int)
    (hwf : cartWF db) (hinv : atMostOnePerPair db) :
    cartWF (runAdd db call) ∧ atMostOnePerPair (runAdd db call) := by
  obtain ⟨uid, pid, qty⟩ := call
  rcases hfp : findProduct db pid with _ | prod
  · have heq : runAdd db (uid, pid, qty) = db := by
      unfold runAdd
      rw [add_to_cart_notFound_eq hfp]
    rw [heq]
    exact ⟨hwf, hinv⟩
  rcases hfc : findCart db uid pid with _ | line
  · by_cases hq : qty ≤ 0
    · have heq : runAdd db (uid, pid, qty) = db := by
        unfold runAdd
        rw [add_to_cart_invalid_eq hfp hfc hq]
      rw [heq]
      exact ⟨hwf, hinv⟩
    · have heq : runAdd db (uid, pid, qty) =
          { db with cart := db.cart ++ [⟨db.nextCartId, uid, pid, qty⟩],
                    nextCartId := db.nextCartId + 1 } := by
        unfold runAdd
        rw [add_to_cart_inserted_eq hfp hfc hq]
      rw [heq]
      refine ⟨⟨?_, ?_⟩, ?_⟩
      · show (db.cart ++ [(⟨db.nextCartId, uid, pid, qty⟩ : Cart)]).Pairwise
          (fun a b => a.id ≠ b.id)
        rw [List.pairwise_append]
        refine ⟨hwf.1, by simp, ?_⟩
        intro a ha b hb
        rw [List.mem_singleton] at hb
        subst hb
        exact Nat.ne_of_lt (hwf.2 a ha)
      · show ∀ c ∈ db.cart ++ [(⟨db.nextCartId, uid, pid, qty⟩ : Cart)],
          c.id < db.nextCartId + 1
        intro c hc
        rcases List.mem_append.mp hc with hc1 | hc1
        · exact Nat.lt_trans (hwf.2 c hc1) (Nat.lt_succ_self _)
        · rw [List.mem_singleton] at hc1
          subst hc1
          exact Nat.lt_succ_self _
      · show (db.cart ++ [(⟨db.nextCartId, uid, pid, qty⟩ : Cart)]).Pairwise
          (fun a b => ¬(a.user_id = b.user_id ∧ a.product_id = b.product_id))
        rw [List.pairwise_append]
        refine ⟨hinv, by simp, ?_⟩
        intro a ha b hb
        rw [List.mem_singleton] at hb
        subst hb
        exact findCart_none hfc a ha
  · have hlmem : line ∈ db.cart := (findCart_some hfc).1
    by_cases hq : line.quantity + qty ≤ 0
    · have heq : runAdd db (uid, pid, qty) =
          { db with cart := db.cart.filter (fun c => c.id != line.id) } := by
        unfold runAdd
        rw [add_to_cart_removed_eq hfp hfc hq]
      rw [heq]
      exact ⟨⟨List.Pairwise.filter _ hwf.1,
          fun c hc => hwf.2 c (List.mem_of_mem_filter hc)⟩,
        List.Pairwise.filter _ hinv⟩
    · have heq : runAdd db (uid, pid, qty) =
          { db with cart := db.cart.map (fun c => if c.id = line.id then
              { line with quantity := line.quantity + qty } else c) } := by
        unfold runAdd
        rw [add_to_cart_updated_eq hfp hfc hq]
      rw [heq]
      have hkeys : ∀ c ∈ db.cart,
          (if c.id = line.id then
            ({ line with quantity := line.quantity + qty } : Cart) else c).id = c.id ∧
          (if c.id = line.id then
            ({ line with quantity := line.quantity + qty } : Cart) else c).user_id
            = c.user_id ∧
          (if c.id = line.id then
            ({ line with quantity := line.quantity + qty } : Cart) else c).product_id
            = c.product_id := by
        intro c hc
        by_cases h : c.id = line.id
        · have hcl : c = line := eq_of_mem_of_id_eq hwf.1 hc hlmem h
          subst hcl
          simp
        · simp [h]
      refine ⟨⟨?_, ?_⟩, ?_⟩
      · show (db.cart.map (fun c => if c.id = line.id then
            { line with quantity := line.quantity + qty } else c)).Pairwise
          (fun a b => a.id ≠ b.id)
        rw [List.pairwise_map]
        refine List.Pairwise.imp_of_mem (fun {a} {b} ha hb hab => ?_) hwf.1
        rw [(hkeys a ha).1, (hkeys b hb).1]
        exact hab
      · show ∀ c ∈ db.cart.map (fun c => if c.id = line.id then
            { line with quantity := line.quantity + qty } else c),
          c.id < db.nextCartId
        intro c hc
        obtain ⟨a, ha, rfl⟩ := List.mem_map.mp hc
        rw [(hkeys a ha).1]
        exact hwf.2 a ha
      · show (db.cart.map (fun c => if c.id = line.id then
            { line with quantity := line.quantity + qty } else c)).Pairwise
          (fun a b => ¬(a.user_id = b.user_id ∧ a.product_id = b.product_id))
        rw [List.pairwise_map]
        refine List.Pairwise.imp_of_mem (fun {a} {b} ha hb hab => ?_) hinv
        rw [(hkeys a ha).2.1, (hkeys b hb).2.1, (hkeys a ha).2.2, (hkeys b hb).2.2]
        exact hab

/-- Claim C4: from any store whose cart table is primary-key well-formed and
satisfies the one-line-per-(user, product) invariant, every sequence of
add_to_cart calls preserves the invariant: at most one cart line exists per
(user, product) pair. -/
theorem runAdds_at_most_one_per_pair (db : DB) (calls : List (Nat × Nat × Int))
    (hwf : cartWF db) (hinv : atMostOnePerPair db) :
    atMostOnePerPair (runAdds db calls) := by
  induction calls generalizing db with
  | nil => exact hinv
  | cons c cs ih =>
    have h := runAdd_preserves db c hwf hinv
    exact ih (runAdd db c) h.1 h.2

/-- Witness for C4: starting from an empty, well-formed cart, a sequence of
adds, increments for the same pair, an add for another user and a removal
still leaves at most one line per (user, product). -/
theorem runAdds_at_most_one_per_pair_witness :
    cartWF ⟨[⟨1, "p1", "d1", 10, "u1", none⟩], [], [], 1, 1⟩ ∧
      atMostOnePerPair ⟨[⟨1, "p1", "d1", 10, "u1", none⟩], [], [], 1, 1⟩ ∧
      atMostOnePerPair (runAdds ⟨[⟨1, "p1", "d1", 10, "u1", none⟩], [], [], 1, 1⟩
        [(1, 1, 2), (1, 1, 3), (2, 1, 1), (1, 1, -9)]) :=
  ⟨by decide, by decide,
    runAdds_at_most_one_per_pair _ _ (by decide) (by decide)⟩

end ShoeApp
